import Mathlib

/-!
# Theme selection of the portfolio script (`src/script.js`)

A shallow embedding of the dark-mode section of `script.js` (lines 32-93) and of the
document-level focus-management handlers (lines 423-431), followed by theorems about
`applyTheme`, `toggleTheme` and `initTheme`.

The page state that the embedded code touches is made explicit:

* the class list of `document.body` (a `DOMTokenList`, an ordered set of tokens),
* the element bound to the constant `darkToggle` (absent when `getElementById` found nothing),
* `localStorage`, whose accesses may raise a `DOMException`,
* `window.matchMedia`, which may be missing.

A JavaScript function that may throw is embedded as a function into `Except DOMException`;
a `try { .. } catch (e) { .. }` block is an explicit `match` on the outcome of the guarded call.
The embedding assumes that `document.body` exists and that `darkToggle` is not the body itself.
-/

namespace Portfolio

/-! ## Browser objects -/

/-- Exceptions a Web Storage access can raise: `SecurityError` when the `localStorage` getter
is not allowed by the user agent, `QuotaExceededError` when `setItem` cannot store the value. -/
inductive DOMException where
  | securityError
  | quotaExceededError
  deriving DecidableEq, Repr

/-- Condition of the storage area: usable, full (every `setItem` raises `QuotaExceededError`),
or disabled (every access raises `SecurityError`). -/
inductive StorageCondition where
  | usable
  | full
  | disabled
  deriving DecidableEq, Repr

/-- A storage operation requested by the script. -/
inductive StorageCall where
  | getItem (key : String)
  | setItem (key value : String)
  deriving DecidableEq, Repr

/-- The `localStorage` object: its key/value pairs, its condition, and the calls made so far
(oldest first). -/
structure Storage where
  items : List (String × String)
  condition : StorageCondition
  calls : List StorageCall
  deriving DecidableEq, Repr

/-- Value stored under `key`, `none` when the key is absent (`null` in JavaScript). -/
def lookupItem : List (String × String) → String → Option String
  | [], _ => none
  | (k, v) :: rest, key => if k = key then some v else lookupItem rest key

/-- Store `value` under `key`: overwrite the existing pair, or add a new one at the end. -/
def storeItem : List (String × String) → String → String → List (String × String)
  | [], key, value => [(key, value)]
  | (k, v) :: rest, key, value =>
    if k = key then (key, value) :: rest else (k, v) :: storeItem rest key value

/-- Call `localStorage.getItem(key)`: the call is recorded; the outcome is the stored value,
or a `SecurityError` when storage is disabled. -/
def Storage.getItem (ls : Storage) (key : String) :
    Storage × Except DOMException (Option String) :=
  let ls1 := { ls with calls := ls.calls ++ [StorageCall.getItem key] }
  match ls.condition with
  | .disabled => (ls1, .error .securityError)
  | _ => (ls1, .ok (lookupItem ls.items key))

/-- Call `localStorage.setItem(key, value)`: the call is recorded; the pair is stored when
storage is usable, otherwise an exception is raised and the pairs stay as they were. -/
def Storage.setItem (ls : Storage) (key value : String) :
    Storage × Except DOMException Unit :=
  let ls1 := { ls with calls := ls.calls ++ [StorageCall.setItem key value] }
  match ls.condition with
  | .disabled => (ls1, .error .securityError)
  | .full => (ls1, .error .quotaExceededError)
  | .usable => ({ ls1 with items := storeItem ls.items key value }, .ok ())

/-- Method `DOMTokenList.add`: append the token unless it is already present. -/
def classListAdd (cl : List String) (token : String) : List String :=
  if token ∈ cl then cl else cl ++ [token]

/-- Method `DOMTokenList.remove`: drop the token. -/
def classListRemove (cl : List String) (token : String) : List String :=
  cl.filter (fun c => decide (c ≠ token))

/-- Method `DOMTokenList.contains`. -/
def classListContains (cl : List String) (token : String) : Bool :=
  decide (token ∈ cl)

/-- The two callbacks that `initTheme` registers on the toggle control. -/
inductive Handler where
  /-- the function `toggleTheme` itself (click) -/
  | toggleTheme
  /-- the arrow function of lines 83-88 (keydown) -/
  | toggleOnEnterOrSpace
  deriving DecidableEq, Repr

/-- An element: its attributes, its inner markup and its event listeners. -/
structure Element where
  attributes : List (String × String)
  innerHTML : String
  listeners : List (String × Handler)
  deriving DecidableEq, Repr

/-- Method `Element.setAttribute`. -/
def Element.setAttribute (el : Element) (name value : String) : Element :=
  { el with attributes := storeItem el.attributes name value }

/-- Method `Element.getAttribute`. -/
def Element.getAttribute (el : Element) (name : String) : Option String :=
  lookupItem el.attributes name

/-- Method `EventTarget.addEventListener`: a listener for the same event type with the same
callback object is not added twice; the arrow function is a new object on every evaluation. -/
def Element.addEventListener (el : Element) (type : String) (h : Handler) : Element :=
  if h = Handler.toggleTheme ∧ (type, h) ∈ el.listeners then el
  else { el with listeners := el.listeners ++ [(type, h)] }

/-- The state of the page that the theme code reads and writes. -/
structure Page where
  /-- the tokens of `document.body.classList` -/
  bodyClassList : List String
  /-- the constant `darkToggle`, result of `document.getElementById('dark-mode-toggle')` -/
  darkToggle : Option Element
  /-- the object `localStorage` -/
  localStorage : Storage
  /-- the function `window.matchMedia` (`none` when undefined), as the map from a media query
  to the `matches` flag of the returned list -/
  matchMedia : Option (String → Bool)

/-! ## The script -/

/-- Line 33. -/
def DARK_CLASS : String := "dark-mode"

/-- Line 34. -/
def THEME_KEY : String := "theme"

/-- Markup written into the control in dark mode (line 41). -/
def sunIcon : String := "<span class=\"toggle-icon\">☀️</span>"

/-- Markup written into the control in light mode (line 47). -/
def moonIcon : String := "<span class=\"toggle-icon\">🌙</span>"

/-- Function `applyTheme` (lines 36-50). -/
def applyTheme (theme : String) (p : Page) : Page :=
  if theme = "dark" then
    { p with
      bodyClassList := classListAdd p.bodyClassList DARK_CLASS
      darkToggle := p.darkToggle.map fun el =>
        { el.setAttribute "aria-pressed" "true" with innerHTML := sunIcon } }
  else
    { p with
      bodyClassList := classListRemove p.bodyClassList DARK_CLASS
      darkToggle := p.darkToggle.map fun el =>
        { el.setAttribute "aria-pressed" "false" with innerHTML := moonIcon } }

/-- Function `toggleTheme` (lines 52-61). Both outcomes of the guarded `setItem` continue
normally: the `catch` block is empty. -/
def toggleTheme (p : Page) : Except DOMException Page :=
  let isDark := classListContains p.bodyClassList DARK_CLASS
  let newTheme := if isDark then "light" else "dark"
  let p1 := applyTheme newTheme p
  match p1.localStorage.setItem THEME_KEY newTheme with
  | (ls, .ok ()) => .ok { p1 with localStorage := ls }
  | (ls, .error _) => .ok { p1 with localStorage := ls }

/-- Condition `window.matchMedia && window.matchMedia('(prefers-color-scheme: dark)').matches`
of line 75. -/
def prefersDark (p : Page) : Bool :=
  match p.matchMedia with
  | some mm => mm "(prefers-color-scheme: dark)"
  | none => false

/-- Function `initTheme` (lines 64-90). -/
def initTheme (p : Page) : Except DOMException Page :=
  let (ls, r) := p.localStorage.getItem THEME_KEY
  let saved : Option String :=
    match r with
    | .ok v => v
    | .error _ => none
  let p0 := { p with localStorage := ls }
  let ambient := if prefersDark p0 then applyTheme "dark" p0 else applyTheme "light" p0
  let p1 :=
    match saved with
    | some s => if s = "dark" ∨ s = "light" then applyTheme s p0 else ambient
    | none => ambient
  .ok { p1 with
    darkToggle := p1.darkToggle.map fun el =>
      (el.addEventListener "click" Handler.toggleTheme).addEventListener
        "keydown" Handler.toggleOnEnterOrSpace }

/-- The keydown listener of the control (lines 83-88). -/
def toggleOnEnterOrSpace (key : String) (p : Page) : Except DOMException Page :=
  if key = "Enter" ∨ key = " " then toggleTheme p else .ok p

/-- The keydown listener of the document (lines 423-427). -/
def documentKeydown (key : String) (p : Page) : Page :=
  if key = "Tab" then
    { p with bodyClassList := classListAdd p.bodyClassList "theme-dark" }
  else p

/-- The mousedown listener of the document (lines 429-431). -/
def documentMousedown (p : Page) : Page :=
  { p with bodyClassList := classListRemove p.bodyClassList "theme-dark" }

/-! ## Observations -/

/-- The applied mode is dark: the body carries the class `dark-mode`. -/
def isDarkApplied (p : Page) : Bool :=
  classListContains p.bodyClassList DARK_CLASS

/-- Attribute `aria-pressed` of the toggle control, when the control exists and has it. -/
def ariaPressed (p : Page) : Option String :=
  p.darkToggle.bind fun el => el.getAttribute "aria-pressed"

/-- Inner markup of the toggle control, when the control exists. -/
def toggleIcon (p : Page) : Option String :=
  p.darkToggle.map fun el => el.innerHTML

/-- The value persisted under the key `theme`. -/
def persisted (p : Page) : Option String :=
  lookupItem p.localStorage.items THEME_KEY

/-- Two pages display the same theme: same body classes, same `aria-pressed` and same markup
of the toggle control. -/
def sameDisplay (p q : Page) : Prop :=
  p.bodyClassList = q.bodyClassList ∧ ariaPressed p = ariaPressed q ∧ toggleIcon p = toggleIcon q

/-- A sample page: light, with a control that was never initialised and empty storage. -/
def samplePage : Page :=
  { bodyClassList := ["home"]
    darkToggle := some { attributes := [("id", "dark-mode-toggle")], innerHTML := "", listeners := [] }
    localStorage := { items := [], condition := .usable, calls := [] }
    matchMedia := some fun q => decide (q = "(prefers-color-scheme: dark)") }

/-! ## Derived definitions used in the statements and proofs -/

/-- The outcome of the guarded read of `initTheme`, with `null` after a caught exception. -/
def savedTheme (p : Page) : Option String :=
  match (p.localStorage.getItem THEME_KEY).2 with
  | .ok v => v
  | .error _ => none

/-- The argument of the call of `applyTheme` that `initTheme` executes. -/
def initialTheme (p : Page) : String :=
  match savedTheme p with
  | some s => if s = "dark" ∨ s = "light" then s else if prefersDark p then "dark" else "light"
  | none => if prefersDark p then "dark" else "light"

/-- Registration of the two listeners at the end of `initTheme`. -/
def withListeners (p : Page) : Page :=
  { p with
    darkToggle := p.darkToggle.map fun el =>
      (el.addEventListener "click" Handler.toggleTheme).addEventListener
        "keydown" Handler.toggleOnEnterOrSpace }

/-- Page used as a concrete input: dark was persisted, the ambient signal reports light. -/
def darkSavedPage : Page :=
  { samplePage with
    localStorage := { items := [("theme", "dark")], condition := .usable, calls := [] }
    matchMedia := some fun _ => false }

/-- The argument of the call of `applyTheme` that `toggleTheme` executes. -/
def toggledTheme (p : Page) : String :=
  if isDarkApplied p then "light" else "dark"

/-- Page used as a concrete input: light is displayed and the storage area is full. -/
def fullStoragePage : Page :=
  { samplePage with
    localStorage := { items := [("theme", "light")], condition := .full, calls := [] } }

/-- Repeated calls of `toggleTheme`: `n` calls in a row, stopping at the first exception. -/
def toggleTimes : Nat → Page → Except DOMException Page
  | 0, p => .ok p
  | n + 1, p =>
    match toggleTheme p with
    | .ok p1 => toggleTimes n p1
    | .error e => .error e

/-- The accessible state of the control agrees with the displayed mode: when the control
exists, `aria-pressed` is `true` in dark mode and `false` in light mode. -/
def ariaMatchesMode (p : Page) : Prop :=
  ariaPressed p = p.darkToggle.map fun _ => if isDarkApplied p then "true" else "false"

/-- Page used as a concrete input: the slot holds `Dark`, the ambient signal reports dark. -/
def badValuePage : Page :=
  { samplePage with
    localStorage := { items := [("theme", "Dark")], condition := .usable, calls := [] } }

/-! ## Auxiliary lemmas -/

theorem mem_classListAdd (cl : List String) (t c : String) :
    c ∈ classListAdd cl t ↔ c ∈ cl ∨ c = t := by
  unfold classListAdd
  split
  · constructor
    · intro h; exact Or.inl h
    · rintro (h | h)
      · exact h
      · subst h; assumption
  · simp

theorem mem_classListRemove (cl : List String) (t c : String) :
    c ∈ classListRemove cl t ↔ c ∈ cl ∧ c ≠ t := by
  simp [classListRemove]

theorem classListAdd_idem (cl : List String) (t : String) :
    classListAdd (classListAdd cl t) t = classListAdd cl t := by
  have h : t ∈ classListAdd cl t := (mem_classListAdd cl t t).2 (Or.inr rfl)
  generalize classListAdd cl t = c at h ⊢
  unfold classListAdd
  rw [if_pos h]

theorem classListRemove_idem (cl : List String) (t : String) :
    classListRemove (classListRemove cl t) t = classListRemove cl t := by
  simp [classListRemove, List.filter_filter]

theorem lookupItem_storeItem (l : List (String × String)) (k v k' : String) :
    lookupItem (storeItem l k v) k' = if k = k' then some v else lookupItem l k' := by
  induction l with
  | nil => simp [storeItem, lookupItem]
  | cons a rest ih =>
    obtain ⟨a1, a2⟩ := a
    by_cases h : a1 = k
    · subst h
      by_cases h2 : a1 = k' <;> simp [storeItem, lookupItem, h2]
    · by_cases h2 : a1 = k'
      · subst h2
        simp [storeItem, lookupItem, h, Ne.symm h]
      · simp [storeItem, lookupItem, h, h2, ih]

theorem storeItem_idem (l : List (String × String)) (k v : String) :
    storeItem (storeItem l k v) k v = storeItem l k v := by
  induction l with
  | nil => simp [storeItem]
  | cons a rest ih =>
    obtain ⟨a1, a2⟩ := a
    by_cases h : a1 = k
    · simp [storeItem, h]
    · simp [storeItem, h, ih]

theorem isDarkApplied_applyTheme (m : String) (p : Page) :
    isDarkApplied (applyTheme m p) = decide (m = "dark") := by
  unfold applyTheme isDarkApplied classListContains
  split
  · rename_i h
    simp [h, mem_classListAdd]
  · rename_i h
    simp [h, mem_classListRemove]

theorem applyTheme_localStorage (m : String) (p : Page) :
    (applyTheme m p).localStorage = p.localStorage := by
  unfold applyTheme; split <;> rfl

theorem applyTheme_matchMedia (m : String) (p : Page) :
    (applyTheme m p).matchMedia = p.matchMedia := by
  unfold applyTheme; split <;> rfl

theorem ariaPressed_applyTheme (m : String) (p : Page) :
    ariaPressed (applyTheme m p) =
      p.darkToggle.map fun _ => if m = "dark" then "true" else "false" := by
  unfold applyTheme ariaPressed
  split <;> rename_i h <;> cases hd : p.darkToggle <;>
    simp [hd, h, Element.getAttribute, Element.setAttribute, lookupItem_storeItem]

theorem toggleIcon_applyTheme (m : String) (p : Page) :
    toggleIcon (applyTheme m p) =
      p.darkToggle.map fun _ => if m = "dark" then sunIcon else moonIcon := by
  unfold applyTheme toggleIcon
  split <;> rename_i h <;> cases hd : p.darkToggle <;> simp [hd, h]

theorem initTheme_eq (p : Page) :
    initTheme p = .ok (withListeners (applyTheme (initialTheme p)
      { p with localStorage := (p.localStorage.getItem THEME_KEY).1 })) := by
  unfold initTheme initialTheme savedTheme withListeners prefersDark
  cases hr : (p.localStorage.getItem THEME_KEY).2 with
  | error e =>
    simp only [hr]
    split <;> rfl
  | ok v =>
    cases v with
    | none => simp only [hr]; split <;> rfl
    | some s =>
      simp only [hr]
      by_cases hs : s = "dark" ∨ s = "light"
      · simp only [hs, if_true]
      · simp only [hs, if_false]
        split <;> rfl

theorem Element.getAttribute_addEventListener (el : Element) (t : String) (h : Handler)
    (a : String) : (el.addEventListener t h).getAttribute a = el.getAttribute a := by
  unfold Element.addEventListener Element.getAttribute
  split <;> rfl

theorem Element.innerHTML_addEventListener (el : Element) (t : String) (h : Handler) :
    (el.addEventListener t h).innerHTML = el.innerHTML := by
  unfold Element.addEventListener
  split <;> rfl

theorem sameDisplay_withListeners (p : Page) : sameDisplay (withListeners p) p := by
  refine ⟨rfl, ?_, ?_⟩
  · unfold ariaPressed withListeners
    cases p.darkToggle <;> simp [Element.getAttribute_addEventListener]
  · unfold toggleIcon withListeners
    cases p.darkToggle <;> simp [Element.innerHTML_addEventListener]

theorem sameDisplay_applyTheme_storage (m : String) (p : Page) (ls : Storage)
    (mm : Option (String → Bool)) :
    sameDisplay (applyTheme m { p with localStorage := ls, matchMedia := mm })
      (applyTheme m p) := by
  refine ⟨?_, ?_, ?_⟩
  · unfold applyTheme; split <;> rfl
  · rw [ariaPressed_applyTheme, ariaPressed_applyTheme]
  · rw [toggleIcon_applyTheme, toggleIcon_applyTheme]

theorem sameDisplay_trans {p q r : Page} (h1 : sameDisplay p q) (h2 : sameDisplay q r) :
    sameDisplay p r :=
  ⟨h1.1.trans h2.1, h1.2.1.trans h2.2.1, h1.2.2.trans h2.2.2⟩

theorem isDarkApplied_congr {p q : Page} (h : sameDisplay p q) :
    isDarkApplied p = isDarkApplied q := by
  unfold isDarkApplied; rw [h.1]

theorem initTheme_display (p : Page) :
    ∃ p', initTheme p = .ok p' ∧ sameDisplay p' (applyTheme (initialTheme p) p) ∧
      p'.localStorage = (p.localStorage.getItem THEME_KEY).1 := by
  refine ⟨_, initTheme_eq p, ?_, ?_⟩
  · refine sameDisplay_trans (sameDisplay_withListeners _) ?_
    exact sameDisplay_applyTheme_storage (initialTheme p) p _ p.matchMedia
  · show (applyTheme _ _).localStorage = _
    rw [applyTheme_localStorage]

/-! ## Theorems about the script -/

/-- C5: `applyTheme` is idempotent. For every argument `m` and every page `p`, applying `m`
to the page produced by applying `m` to `p` gives the very same page, hence the same body
classes, the same `aria-pressed` and the same icon markup. -/
theorem applyTheme_idempotent (m : String) (p : Page) :
    applyTheme m (applyTheme m p) = applyTheme m p ∧
      sameDisplay (applyTheme m (applyTheme m p)) (applyTheme m p) := by
  have h : applyTheme m (applyTheme m p) = applyTheme m p := by
    unfold applyTheme
    by_cases hm : m = "dark"
    · simp only [hm, if_true, classListAdd_idem]
      cases p.darkToggle <;> simp [Element.setAttribute, storeItem_idem]
    · simp only [hm, if_false, classListRemove_idem]
      cases p.darkToggle <;> simp [Element.setAttribute, storeItem_idem]
  exact ⟨h, by rw [h]; exact ⟨rfl, rfl, rfl⟩⟩

/-- C1: when the read of the key `theme` returns `v` with `v` one of `light` and `dark`, then
for every ambient signal `mm` (a `matchMedia` that reports dark, one that reports light, or no
`matchMedia` at all) `initTheme` returns normally and displays exactly what `applyTheme v`
displays; the body carries the class `dark-mode` if and only if `v` is `dark`. -/
theorem initTheme_applies_persisted (p : Page) (mm : Option (String → Bool)) (v : String)
    (hv : v = "light" ∨ v = "dark")
    (hread : (p.localStorage.getItem THEME_KEY).2 = .ok (some v)) :
    ∃ p', initTheme { p with matchMedia := mm } = .ok p' ∧
      sameDisplay p' (applyTheme v p) ∧
      (isDarkApplied p' = true ↔ v = "dark") := by
  obtain ⟨p', h1, h2, -⟩ := initTheme_display { p with matchMedia := mm }
  have hi : initialTheme { p with matchMedia := mm } = v := by
    have hs : savedTheme { p with matchMedia := mm } = some v := by
      unfold savedTheme; simp only [hread]
    unfold initialTheme
    rw [hs]
    have hv2 : v = "dark" ∨ v = "light" := hv.symm
    simp only [hv2, if_true]
  rw [hi] at h2
  have h3 : sameDisplay p' (applyTheme v p) :=
    sameDisplay_trans h2 (sameDisplay_applyTheme_storage v p p.localStorage mm)
  refine ⟨p', h1, h3, ?_⟩
  rw [isDarkApplied_congr h3, isDarkApplied_applyTheme]
  simp

theorem initTheme_applies_persisted_witness :
    ("dark" = "light" ∨ "dark" = "dark") ∧
    (darkSavedPage.localStorage.getItem THEME_KEY).2 = .ok (some "dark") ∧
    ∃ p', initTheme { darkSavedPage with matchMedia := none } = .ok p' ∧
      sameDisplay p' (applyTheme "dark" darkSavedPage) ∧
      (isDarkApplied p' = true ↔ "dark" = "dark") :=
  ⟨by decide, rfl, initTheme_applies_persisted darkSavedPage none "dark" (by decide) rfl⟩

/-- C2: `initTheme` returns normally on every page. When the read of the key `theme` returns
`null`, the body carries the class `dark-mode` afterwards if and only if `window.matchMedia`
exists and reports a dark preference: in that case the page displays what `applyTheme('dark')`
displays, and when `matchMedia` reports light or is missing it displays what
`applyTheme('light')` displays. -/
theorem initTheme_without_persisted (p : Page) (mm : Option (String → Bool))
    (hread : (p.localStorage.getItem THEME_KEY).2 = .ok none) :
    (∀ q : Page, ∃ q', initTheme q = .ok q') ∧
    ∃ p', initTheme { p with matchMedia := mm } = .ok p' ∧
      (isDarkApplied p' = true ↔ ∃ f, mm = some f ∧ f "(prefers-color-scheme: dark)" = true) ∧
      ((∃ f, mm = some f ∧ f "(prefers-color-scheme: dark)" = true) →
        sameDisplay p' (applyTheme "dark" p)) ∧
      ((mm = none ∨ ∃ f, mm = some f ∧ f "(prefers-color-scheme: dark)" = false) →
        sameDisplay p' (applyTheme "light" p) ∧ isDarkApplied p' = false) := by
  refine ⟨fun q => ⟨_, initTheme_eq q⟩, ?_⟩
  obtain ⟨p', h1, h2, -⟩ := initTheme_display { p with matchMedia := mm }
  have hs : savedTheme { p with matchMedia := mm } = none := by
    unfold savedTheme; simp only [hread]
  have hi : initialTheme { p with matchMedia := mm } =
      if prefersDark { p with matchMedia := mm } then "dark" else "light" := by
    unfold initialTheme; rw [hs]
  rw [hi] at h2
  have hp : (prefersDark { p with matchMedia := mm } = true) ↔
      ∃ f, mm = some f ∧ f "(prefers-color-scheme: dark)" = true := by
    unfold prefersDark
    cases mm <;> simp
  by_cases hd : prefersDark { p with matchMedia := mm } = true
  · rw [if_pos hd] at h2
    have h3 : sameDisplay p' (applyTheme "dark" p) :=
      sameDisplay_trans h2 (sameDisplay_applyTheme_storage "dark" p p.localStorage mm)
    have h4 : isDarkApplied p' = true := by
      rw [isDarkApplied_congr h3, isDarkApplied_applyTheme]; rfl
    refine ⟨p', h1, ⟨fun _ => hp.1 hd, fun _ => h4⟩, fun _ => h3, ?_⟩
    intro hl
    exfalso
    obtain ⟨f, hf, hft⟩ := hp.1 hd
    rcases hl with hl | ⟨g, hg, hgf⟩
    · rw [hl] at hf; cases hf
    · rw [hg] at hf; cases hf; rw [hgf] at hft; cases hft
  · rw [if_neg hd] at h2
    have h3 : sameDisplay p' (applyTheme "light" p) :=
      sameDisplay_trans h2 (sameDisplay_applyTheme_storage "light" p p.localStorage mm)
    have h4 : isDarkApplied p' = false := by
      rw [isDarkApplied_congr h3, isDarkApplied_applyTheme]; rfl
    refine ⟨p', h1, ⟨fun h => ?_, fun h => absurd (hp.2 h) hd⟩, fun h => absurd (hp.2 h) hd,
      fun _ => ⟨h3, h4⟩⟩
    rw [h4] at h; cases h

theorem initTheme_without_persisted_witness :
    (samplePage.localStorage.getItem THEME_KEY).2 = .ok none ∧
    ((∀ q : Page, ∃ q', initTheme q = .ok q') ∧
    ∃ p', initTheme { samplePage with matchMedia := none } = .ok p' ∧
      (isDarkApplied p' = true ↔
        ∃ f, (none : Option (String → Bool)) = some f ∧
          f "(prefers-color-scheme: dark)" = true) ∧
      ((∃ f, (none : Option (String → Bool)) = some f ∧
          f "(prefers-color-scheme: dark)" = true) →
        sameDisplay p' (applyTheme "dark" samplePage)) ∧
      (((none : Option (String → Bool)) = none ∨
          ∃ f, (none : Option (String → Bool)) = some f ∧
            f "(prefers-color-scheme: dark)" = false) →
        sameDisplay p' (applyTheme "light" samplePage) ∧ isDarkApplied p' = false)) :=
  ⟨rfl, initTheme_without_persisted samplePage none rfl⟩

theorem toggleTheme_eq (p : Page) :
    toggleTheme p = .ok { applyTheme (toggledTheme p) p with
      localStorage := (p.localStorage.setItem THEME_KEY (toggledTheme p)).1 } := by
  unfold toggleTheme toggledTheme isDarkApplied
  simp only [applyTheme_localStorage]
  split
  · rename_i ls hls; rw [hls]
  · rename_i ls e hls; rw [hls]

theorem sameDisplay_setStorage (p : Page) (ls : Storage) :
    sameDisplay { p with localStorage := ls } p :=
  ⟨rfl, rfl, rfl⟩

theorem toggleTheme_display (p : Page) :
    ∃ p', toggleTheme p = .ok p' ∧ sameDisplay p' (applyTheme (toggledTheme p) p) ∧
      isDarkApplied p' = !isDarkApplied p ∧
      p'.localStorage = (p.localStorage.setItem THEME_KEY (toggledTheme p)).1 ∧
      p'.matchMedia = p.matchMedia := by
  refine ⟨_, toggleTheme_eq p, sameDisplay_setStorage _ _, ?_, rfl, ?_⟩
  · rw [isDarkApplied_congr (sameDisplay_setStorage _ _), isDarkApplied_applyTheme]
    unfold toggledTheme
    cases isDarkApplied p <;> simp
  · show (applyTheme _ _).matchMedia = _
    rw [applyTheme_matchMedia]

theorem setItem_calls (ls : Storage) (k v : String) :
    (ls.setItem k v).1.calls = ls.calls ++ [StorageCall.setItem k v] := by
  unfold Storage.setItem
  cases ls.condition <;> rfl

theorem setItem_condition (ls : Storage) (k v : String) :
    (ls.setItem k v).1.condition = ls.condition := by
  unfold Storage.setItem
  cases ls.condition <;> rfl

theorem setItem_ok_iff (ls : Storage) (k v : String) :
    (ls.setItem k v).2 = .ok () ↔ ls.condition = .usable := by
  unfold Storage.setItem
  cases ls.condition <;> simp

theorem setItem_items_usable (ls : Storage) (k v : String) (h : ls.condition = .usable) :
    (ls.setItem k v).1.items = storeItem ls.items k v := by
  unfold Storage.setItem
  rw [h]

theorem setItem_items_failed (ls : Storage) (k v : String) (h : ls.condition ≠ .usable) :
    (ls.setItem k v).1.items = ls.items := by
  unfold Storage.setItem
  cases hc : ls.condition
  · exact absurd hc h
  · rfl
  · rfl

theorem sameDisplay_applyTheme_of_storage (m : String) (p : Page) (ls : Storage) :
    sameDisplay (applyTheme m { p with localStorage := ls }) (applyTheme m p) :=
  sameDisplay_applyTheme_storage m p ls p.matchMedia

theorem sameDisplay_symm {p q : Page} (h : sameDisplay p q) : sameDisplay q p :=
  ⟨h.1.symm, h.2.1.symm, h.2.2.symm⟩

/-- C3: on every page `toggleTheme` returns normally and the body carries `dark-mode`
afterwards exactly when it did not before: the page displays what `applyTheme` displays for
`light` when the body carried the class and for `dark` when it did not. The displayed result is
the same whatever `localStorage` holds. The call `setItem('theme', newTheme)` with that new mode
is the one storage call made, and on usable storage the key `theme` holds the new mode
afterwards while every other key keeps its value. -/
theorem toggleTheme_flips_and_writes (p : Page) :
    ∃ p', toggleTheme p = .ok p' ∧
      isDarkApplied p' = (!isDarkApplied p) ∧
      sameDisplay p' (applyTheme (if isDarkApplied p then "light" else "dark") p) ∧
      (∀ ls : Storage, ∃ q', toggleTheme { p with localStorage := ls } = .ok q' ∧
        sameDisplay q' p') ∧
      p'.localStorage.calls = p.localStorage.calls ++
        [StorageCall.setItem "theme" (if isDarkApplied p then "light" else "dark")] ∧
      (p.localStorage.condition = .usable →
        persisted p' = some (if isDarkApplied p then "light" else "dark") ∧
        ∀ k, k ≠ "theme" →
          lookupItem p'.localStorage.items k = lookupItem p.localStorage.items k) := by
  obtain ⟨p', h1, h2, h3, h4, -⟩ := toggleTheme_display p
  refine ⟨p', h1, h3, h2, ?_, ?_, ?_⟩
  · intro ls
    obtain ⟨q', g1, g2, -, -, -⟩ := toggleTheme_display { p with localStorage := ls }
    refine ⟨q', g1, sameDisplay_trans g2 ?_⟩
    have : toggledTheme { p with localStorage := ls } = toggledTheme p := rfl
    rw [this]
    exact sameDisplay_trans (sameDisplay_applyTheme_of_storage _ p ls) (sameDisplay_symm h2)
  · rw [h4, setItem_calls]; rfl
  · intro hu
    unfold persisted
    rw [h4, setItem_items_usable _ _ _ hu]
    refine ⟨?_, ?_⟩
    · rw [lookupItem_storeItem]; simp [toggledTheme]
    · intro k hk
      rw [lookupItem_storeItem]
      have : ¬ THEME_KEY = k := fun h => hk h.symm
      simp [this]

/-- C6: when the call `localStorage.setItem('theme', newTheme)` made by `toggleTheme` raises an
exception `e`, `toggleTheme` still returns normally, the body carries `dark-mode` afterwards
exactly when it did not before, the page displays what `applyTheme(newTheme)` displays, and the
stored pairs are the ones stored before the call. -/
theorem toggleTheme_survives_write_failure (p : Page) (e : DOMException)
    (hfail : (p.localStorage.setItem THEME_KEY
      (if isDarkApplied p then "light" else "dark")).2 = .error e) :
    ∃ p', toggleTheme p = .ok p' ∧
      isDarkApplied p' = (!isDarkApplied p) ∧
      sameDisplay p' (applyTheme (if isDarkApplied p then "light" else "dark") p) ∧
      p'.localStorage.items = p.localStorage.items ∧
      persisted p' = persisted p := by
  obtain ⟨p', h1, h2, h3, h4, -⟩ := toggleTheme_display p
  have hc : p.localStorage.condition ≠ .usable := by
    intro hu
    rw [(setItem_ok_iff _ _ _).2 hu] at hfail
    cases hfail
  have hi : p'.localStorage.items = p.localStorage.items := by
    rw [h4, setItem_items_failed _ _ _ hc]
  exact ⟨p', h1, h3, h2, hi, by unfold persisted; rw [hi]⟩

theorem toggleTheme_survives_write_failure_witness :
    (fullStoragePage.localStorage.setItem THEME_KEY
      (if isDarkApplied fullStoragePage then "light" else "dark")).2 =
        .error .quotaExceededError ∧
    ∃ p', toggleTheme fullStoragePage = .ok p' ∧
      isDarkApplied p' = (!isDarkApplied fullStoragePage) ∧
      sameDisplay p'
        (applyTheme (if isDarkApplied fullStoragePage then "light" else "dark")
          fullStoragePage) ∧
      p'.localStorage.items = fullStoragePage.localStorage.items ∧
      persisted p' = persisted fullStoragePage :=
  ⟨rfl, toggleTheme_survives_write_failure fullStoragePage .quotaExceededError rfl⟩

theorem applyTheme_darkToggle_isSome (m : String) (p : Page) :
    (applyTheme m p).darkToggle.isSome = p.darkToggle.isSome := by
  unfold applyTheme
  split <;> cases p.darkToggle <;> rfl

theorem mem_bodyClassList_applyTheme (m : String) (p : Page) (c : String) :
    c ∈ (applyTheme m p).bodyClassList ↔
      if m = "dark" then c ∈ p.bodyClassList ∨ c = DARK_CLASS
      else c ∈ p.bodyClassList ∧ c ≠ DARK_CLASS := by
  unfold applyTheme
  split
  · exact mem_classListAdd _ _ _
  · exact mem_classListRemove _ _ _

/-- C4: start from any page on which a mode `m` was applied. Two calls of `toggleTheme`, each
with storage in an arbitrary state (`ls1` for the first call, `ls2` for the second, so each
write may succeed or fail), both return normally, and afterwards the body carries `dark-mode`
exactly when it did after `applyTheme(m)`, the body has the same set of classes, and
`aria-pressed` and the icon markup of the control are what they were after `applyTheme(m)`;
after the first call alone the `dark-mode` class is the opposite. -/
theorem toggleTheme_twice_restores (m : String) (p : Page) (ls1 ls2 : Storage) :
    ∃ p1 p2,
      toggleTheme { applyTheme m p with localStorage := ls1 } = .ok p1 ∧
      toggleTheme { p1 with localStorage := ls2 } = .ok p2 ∧
      isDarkApplied p1 = (!isDarkApplied (applyTheme m p)) ∧
      isDarkApplied p2 = isDarkApplied (applyTheme m p) ∧
      (∀ c, c ∈ p2.bodyClassList ↔ c ∈ (applyTheme m p).bodyClassList) ∧
      ariaPressed p2 = ariaPressed (applyTheme m p) ∧
      toggleIcon p2 = toggleIcon (applyTheme m p) := by
  obtain ⟨p1, h1, d1, f1, -, -⟩ := toggleTheme_display { applyTheme m p with localStorage := ls1 }
  obtain ⟨p2, h2, d2, f2, -, -⟩ := toggleTheme_display { p1 with localStorage := ls2 }
  have e0 : isDarkApplied { applyTheme m p with localStorage := ls1 } =
      isDarkApplied (applyTheme m p) := rfl
  have e1 : isDarkApplied { p1 with localStorage := ls2 } = isDarkApplied p1 := rfl
  rw [e0] at f1
  rw [e1, f1, Bool.not_not] at f2
  have t1 : toggledTheme { applyTheme m p with localStorage := ls1 } =
      if m = "dark" then "light" else "dark" := by
    unfold toggledTheme; rw [e0, isDarkApplied_applyTheme]
    by_cases hm : m = "dark" <;> simp [hm]
  have t2 : toggledTheme { p1 with localStorage := ls2 } =
      if m = "dark" then "dark" else "light" := by
    unfold toggledTheme; rw [e1, f1, isDarkApplied_applyTheme]
    by_cases hm : m = "dark" <;> simp [hm]
  rw [t1] at d1
  rw [t2] at d2
  have s1 : p1.darkToggle.isSome = p.darkToggle.isSome := by
    have a1 : ariaPressed p1 = _ := d1.2.1
    rw [ariaPressed_applyTheme] at a1
    have : (applyTheme m p).darkToggle.isSome = p.darkToggle.isSome :=
      applyTheme_darkToggle_isSome m p
    rw [← this]
    have b1 : toggleIcon p1 = _ := d1.2.2
    rw [toggleIcon_applyTheme] at b1
    unfold toggleIcon at b1
    show p1.darkToggle.isSome = (applyTheme m p).darkToggle.isSome
    cases hp1 : p1.darkToggle <;> cases hq : (applyTheme m p).darkToggle <;>
      simp [hp1, hq] at b1 ⊢
  refine ⟨p1, p2, h1, h2, f1, f2, ?_, ?_, ?_⟩
  · intro c
    rw [d2.1, mem_bodyClassList_applyTheme]
    dsimp only
    rw [d1.1, mem_bodyClassList_applyTheme]
    dsimp only
    have hmem := mem_bodyClassList_applyTheme m p DARK_CLASS
    by_cases hm : m = "dark"
    · rw [if_pos hm] at hmem
      have hD' : DARK_CLASS ∈ (applyTheme m p).bodyClassList := hmem.2 (Or.inr rfl)
      simp only [hm, if_true] at hD' ⊢
      have hD : DARK_CLASS ∈ (applyTheme "dark" p).bodyClassList := hD'
      simp only [show ¬ ("light" = "dark") by decide, if_false]
      constructor
      · rintro (⟨h, -⟩ | h)
        · exact h
        · rw [h]; exact hD
      · intro h
        by_cases hc : c = DARK_CLASS
        · exact Or.inr hc
        · exact Or.inl ⟨h, hc⟩
    · rw [if_neg hm] at hmem
      have hD : DARK_CLASS ∉ (applyTheme m p).bodyClassList := fun h => (hmem.1 h).2 rfl
      simp only [hm, if_false]
      simp only [show ¬ ("light" = "dark") by decide, if_false, if_true]
      constructor
      · rintro ⟨h | h, hc⟩
        · exact h
        · exact absurd h hc
      · intro h
        exact ⟨Or.inl h, fun hc => hD (hc ▸ h)⟩
  · rw [d2.2.1, ariaPressed_applyTheme, ariaPressed_applyTheme]
    show Option.map _ p1.darkToggle = _
    cases hp1 : p1.darkToggle <;> cases hq : p.darkToggle <;>
      simp [hp1, hq] at s1 ⊢
  · rw [d2.2.2, toggleIcon_applyTheme, toggleIcon_applyTheme]
    show Option.map _ p1.darkToggle = _
    cases hp1 : p1.darkToggle <;> cases hq : p.darkToggle <;>
      simp [hp1, hq] at s1 ⊢

theorem initTheme_saved (p : Page) (v : String) (hv : v = "light" ∨ v = "dark")
    (hread : (p.localStorage.getItem THEME_KEY).2 = .ok (some v)) :
    ∃ p', initTheme p = .ok p' ∧ sameDisplay p' (applyTheme v p) ∧
      isDarkApplied p' = decide (v = "dark") := by
  obtain ⟨p', h1, h2, -⟩ := initTheme_display p
  have hi : initialTheme p = v := by
    have hs : savedTheme p = some v := by
      unfold savedTheme; simp only [hread]
    unfold initialTheme
    rw [hs]
    have hv2 : v = "dark" ∨ v = "light" := hv.symm
    simp only [hv2, if_true]
  rw [hi] at h2
  exact ⟨p', h1, h2, by rw [isDarkApplied_congr h2, isDarkApplied_applyTheme]⟩

theorem initTheme_fallback (p : Page)
    (hbad : ∀ v, (p.localStorage.getItem THEME_KEY).2 = .ok (some v) →
      v ≠ "light" ∧ v ≠ "dark") :
    ∃ p', initTheme p = .ok p' ∧
      sameDisplay p' (applyTheme (if prefersDark p then "dark" else "light") p) ∧
      isDarkApplied p' = prefersDark p := by
  obtain ⟨p', h1, h2, -⟩ := initTheme_display p
  have hi : initialTheme p = if prefersDark p then "dark" else "light" := by
    unfold initialTheme savedTheme
    cases hr : (p.localStorage.getItem THEME_KEY).2 with
    | error e => rfl
    | ok o =>
      cases o with
      | none => rfl
      | some v =>
        have hv := hbad v hr
        have : ¬ (v = "dark" ∨ v = "light") := fun h => h.elim hv.2 hv.1
        simp only [this, if_false]
  rw [hi] at h2
  refine ⟨p', h1, h2, ?_⟩
  rw [isDarkApplied_congr h2, isDarkApplied_applyTheme]
  cases prefersDark p <;> simp

theorem getItem_fst (ls : Storage) (k : String) :
    (ls.getItem k).1 = { ls with calls := ls.calls ++ [StorageCall.getItem k] } := by
  unfold Storage.getItem
  cases ls.condition <;> rfl

theorem getItem_usable (ls : Storage) (k : String) (h : ls.condition = .usable) :
    (ls.getItem k).2 = .ok (lookupItem ls.items k) := by
  unfold Storage.getItem
  rw [h]

theorem prefersDark_iff (p : Page) :
    prefersDark p = true ↔
      ∃ f, p.matchMedia = some f ∧ f "(prefers-color-scheme: dark)" = true := by
  unfold prefersDark
  cases p.matchMedia <;> simp

theorem prefersDark_eq_false_iff (p : Page) :
    prefersDark p = false ↔
      (p.matchMedia = none ∨
        ∃ f, p.matchMedia = some f ∧ f "(prefers-color-scheme: dark)" = false) := by
  unfold prefersDark
  cases p.matchMedia <;> simp

/-- C7: take any page on which the storage write of `toggleTheme` succeeds. After the call
the value persisted under `theme` is the mode now displayed (the opposite of the one displayed
before), and `initTheme` on any fresh page that has this storage (any body classes, any
control, any ambient signal) returns normally and displays that same mode. In particular, for
a client whose read of `theme` returns `null`, whose storage is usable and whose
`window.matchMedia` exists and reports a match for `(prefers-color-scheme: dark)`: `initTheme`
displays dark; one `toggleTheme` displays light and persists `light`; `initTheme` on a fresh
page with that storage (any ambient signal) displays light. -/
theorem toggle_then_reload (p : Page)
    (hw : (p.localStorage.setItem THEME_KEY
      (if isDarkApplied p then "light" else "dark")).2 = .ok ()) :
    (∃ p1, toggleTheme p = .ok p1 ∧
      isDarkApplied p1 = (!isDarkApplied p) ∧
      persisted p1 = some (if isDarkApplied p1 then "dark" else "light") ∧
      ∀ fresh : Page, fresh.localStorage = p1.localStorage →
        ∃ p2, initTheme fresh = .ok p2 ∧ isDarkApplied p2 = isDarkApplied p1 ∧
          sameDisplay p2 (applyTheme (if isDarkApplied p1 then "dark" else "light") fresh)) ∧
    (∀ p0 : Page, (p0.localStorage.getItem THEME_KEY).2 = .ok none →
      p0.localStorage.condition = .usable →
      (∃ f, p0.matchMedia = some f ∧ f "(prefers-color-scheme: dark)" = true) →
      ∃ q1 q2, initTheme p0 = .ok q1 ∧ isDarkApplied q1 = true ∧
        toggleTheme q1 = .ok q2 ∧ isDarkApplied q2 = false ∧ persisted q2 = some "light" ∧
        ∀ fresh : Page, fresh.localStorage = q2.localStorage →
          ∃ q3, initTheme fresh = .ok q3 ∧ isDarkApplied q3 = false) := by
  have key : ∀ p : Page, p.localStorage.condition = .usable →
      ∃ p1, toggleTheme p = .ok p1 ∧
      isDarkApplied p1 = (!isDarkApplied p) ∧
      persisted p1 = some (if isDarkApplied p1 then "dark" else "light") ∧
      ∀ fresh : Page, fresh.localStorage = p1.localStorage →
        ∃ p2, initTheme fresh = .ok p2 ∧ isDarkApplied p2 = isDarkApplied p1 ∧
          sameDisplay p2 (applyTheme (if isDarkApplied p1 then "dark" else "light") fresh) := by
    intro p hu
    obtain ⟨p1, h1, -, h3, h4, -⟩ := toggleTheme_display p
    have hp : persisted p1 = some (if isDarkApplied p1 then "dark" else "light") := by
      unfold persisted
      rw [h4, setItem_items_usable _ _ _ hu, lookupItem_storeItem, h3]
      unfold toggledTheme
      cases isDarkApplied p <;> simp
    refine ⟨p1, h1, h3, hp, ?_⟩
    intro fresh hf
    have hc : fresh.localStorage.condition = .usable := by
      rw [hf, h4, setItem_condition]; exact hu
    have hr : (fresh.localStorage.getItem THEME_KEY).2 =
        .ok (some (if isDarkApplied p1 then "dark" else "light")) := by
      rw [getItem_usable _ _ hc, hf]; exact congrArg Except.ok hp
    have hv : (if isDarkApplied p1 then "dark" else "light") = "light" ∨
        (if isDarkApplied p1 then "dark" else "light") = "dark" := by
      cases isDarkApplied p1 <;> simp
    obtain ⟨p2, g1, g2, g3⟩ := initTheme_saved fresh _ hv hr
    refine ⟨p2, g1, ?_, g2⟩
    rw [g3]
    cases isDarkApplied p1 <;> simp
  refine ⟨key p ((setItem_ok_iff _ _ _).1 hw), ?_⟩
  intro p0 hnone hu hamb
  have hd : prefersDark p0 = true := (prefersDark_iff p0).2 hamb
  have hbad : ∀ v, (p0.localStorage.getItem THEME_KEY).2 = .ok (some v) →
      v ≠ "light" ∧ v ≠ "dark" := by
    intro v hv; rw [hnone] at hv; cases hv
  obtain ⟨q1, a1, -, a3⟩ := initTheme_fallback p0 hbad
  have a5 : q1.localStorage = (p0.localStorage.getItem THEME_KEY).1 := by
    have := initTheme_eq p0
    rw [a1] at this
    injection this with this
    rw [this]
    show (applyTheme _ _).localStorage = _
    rw [applyTheme_localStorage]
  have hu1 : q1.localStorage.condition = .usable := by
    rw [a5, getItem_fst]; exact hu
  rw [hd] at a3
  obtain ⟨q2, b1, b2, b3, b4⟩ := key q1 hu1
  rw [a3] at b2
  have b2' : isDarkApplied q2 = false := by rw [b2]; rfl
  rw [b2'] at b3 b4
  refine ⟨q1, q2, a1, a3, b1, b2', b3, ?_⟩
  intro fresh hf
  obtain ⟨q3, c1, c2, -⟩ := b4 fresh hf
  exact ⟨q3, c1, c2⟩

theorem toggle_then_reload_witness :
    (samplePage.localStorage.setItem THEME_KEY
      (if isDarkApplied samplePage then "light" else "dark")).2 = .ok () ∧
    (∃ p1, toggleTheme samplePage = .ok p1 ∧
      isDarkApplied p1 = (!isDarkApplied samplePage) ∧
      persisted p1 = some (if isDarkApplied p1 then "dark" else "light") ∧
      ∀ fresh : Page, fresh.localStorage = p1.localStorage →
        ∃ p2, initTheme fresh = .ok p2 ∧ isDarkApplied p2 = isDarkApplied p1 ∧
          sameDisplay p2 (applyTheme (if isDarkApplied p1 then "dark" else "light") fresh)) ∧
    ((samplePage.localStorage.getItem THEME_KEY).2 = .ok none ∧
      samplePage.localStorage.condition = .usable ∧
      (∃ f, samplePage.matchMedia = some f ∧ f "(prefers-color-scheme: dark)" = true)) ∧
    ∃ q1 q2, initTheme samplePage = .ok q1 ∧ isDarkApplied q1 = true ∧
      toggleTheme q1 = .ok q2 ∧ isDarkApplied q2 = false ∧ persisted q2 = some "light" ∧
      ∀ fresh : Page, fresh.localStorage = q2.localStorage →
        ∃ q3, initTheme fresh = .ok q3 ∧ isDarkApplied q3 = false :=
  ⟨rfl, (toggle_then_reload samplePage rfl).1, ⟨rfl, rfl, ⟨_, rfl, by decide⟩⟩,
    (toggle_then_reload samplePage rfl).2 samplePage rfl rfl ⟨_, rfl, by decide⟩⟩

theorem initTheme_storage (p p' : Page) (h : initTheme p = .ok p') :
    p'.localStorage = { p.localStorage with
      calls := p.localStorage.calls ++ [StorageCall.getItem THEME_KEY] } := by
  rw [initTheme_eq p] at h
  injection h with h
  rw [← h]
  show (applyTheme _ _).localStorage = _
  rw [applyTheme_localStorage]
  exact getItem_fst _ _

/-- C8: when the read of the key `theme` raises an exception, or returns a string that is
neither `light` nor `dark`, `initTheme` returns normally and displays exactly what it displays
on the same page with a storage `ls0` whose read returns `null`: the body carries `dark-mode`
if and only if `window.matchMedia` exists and reports a match for
`(prefers-color-scheme: dark)`, in which case the page displays what `applyTheme('dark')`
displays; when `matchMedia` is missing or reports no match the page displays what
`applyTheme('light')` displays. On every page, the only storage call of
`initTheme` is `getItem('theme')`, and the stored pairs and the storage condition are left as
they were. -/
theorem initTheme_ignores_unusable_value (p : Page) (ls0 : Storage)
    (hbad : (∃ e, (p.localStorage.getItem THEME_KEY).2 = .error e) ∨
      ∃ v, (p.localStorage.getItem THEME_KEY).2 = .ok (some v) ∧ v ≠ "light" ∧ v ≠ "dark")
    (hnone : (ls0.getItem THEME_KEY).2 = .ok none) :
    (∃ p' q', initTheme p = .ok p' ∧ initTheme { p with localStorage := ls0 } = .ok q' ∧
      sameDisplay p' q' ∧
      (isDarkApplied p' = true ↔
        ∃ f, p.matchMedia = some f ∧ f "(prefers-color-scheme: dark)" = true) ∧
      ((∃ f, p.matchMedia = some f ∧ f "(prefers-color-scheme: dark)" = true) →
        sameDisplay p' (applyTheme "dark" p)) ∧
      ((p.matchMedia = none ∨
          ∃ f, p.matchMedia = some f ∧ f "(prefers-color-scheme: dark)" = false) →
        sameDisplay p' (applyTheme "light" p) ∧ isDarkApplied p' = false)) ∧
    (∀ q q' : Page, initTheme q = .ok q' →
      q'.localStorage.items = q.localStorage.items ∧
      q'.localStorage.condition = q.localStorage.condition ∧
      q'.localStorage.calls = q.localStorage.calls ++ [StorageCall.getItem "theme"]) := by
  constructor
  · have h1 : ∀ v, (p.localStorage.getItem THEME_KEY).2 = .ok (some v) →
        v ≠ "light" ∧ v ≠ "dark" := by
      intro v hv
      rcases hbad with ⟨e, he⟩ | ⟨w, hw, hw2⟩
      · rw [he] at hv; cases hv
      · rw [hw] at hv
        injection hv with hv
        injection hv with hv
        rw [← hv]; exact hw2
    have h2 : ∀ v, (ls0.getItem THEME_KEY).2 = .ok (some v) → v ≠ "light" ∧ v ≠ "dark" := by
      intro v hv
      rw [hnone] at hv; cases hv
    obtain ⟨p', a1, a2, a3⟩ := initTheme_fallback p h1
    obtain ⟨q', b1, b2, -⟩ := initTheme_fallback { p with localStorage := ls0 } h2
    have e1 : prefersDark { p with localStorage := ls0 } = prefersDark p := rfl
    rw [e1] at b2
    refine ⟨p', q', a1, b1, ?_, ?_, ?_, ?_⟩
    · refine sameDisplay_trans a2 (sameDisplay_symm (sameDisplay_trans b2 ?_))
      exact sameDisplay_applyTheme_of_storage _ p ls0
    · rw [a3]; exact prefersDark_iff p
    · intro hamb
      rw [(prefersDark_iff p).2 hamb] at a2
      exact a2
    · intro hamb
      have hf : prefersDark p = false := (prefersDark_eq_false_iff p).2 hamb
      rw [hf] at a2 a3
      exact ⟨a2, a3⟩
  · intro q q' h
    rw [initTheme_storage q q' h]
    exact ⟨rfl, rfl, rfl⟩

theorem initTheme_ignores_unusable_value_witness :
    ((∃ e, (badValuePage.localStorage.getItem THEME_KEY).2 = .error e) ∨
      ∃ v, (badValuePage.localStorage.getItem THEME_KEY).2 = .ok (some v) ∧
        v ≠ "light" ∧ v ≠ "dark") ∧
    (samplePage.localStorage.getItem THEME_KEY).2 = .ok none ∧
    (∃ f, badValuePage.matchMedia = some f ∧ f "(prefers-color-scheme: dark)" = true) ∧
    ∃ p' q', initTheme badValuePage = .ok p' ∧
      initTheme { badValuePage with localStorage := samplePage.localStorage } = .ok q' ∧
      sameDisplay p' q' ∧
      (isDarkApplied p' = true ↔
        ∃ f, badValuePage.matchMedia = some f ∧ f "(prefers-color-scheme: dark)" = true) ∧
      ((∃ f, badValuePage.matchMedia = some f ∧ f "(prefers-color-scheme: dark)" = true) →
        sameDisplay p' (applyTheme "dark" badValuePage)) ∧
      ((badValuePage.matchMedia = none ∨
          ∃ f, badValuePage.matchMedia = some f ∧
            f "(prefers-color-scheme: dark)" = false) →
        sameDisplay p' (applyTheme "light" badValuePage) ∧ isDarkApplied p' = false) :=
  ⟨Or.inr ⟨"Dark", rfl, by decide, by decide⟩, rfl, ⟨_, rfl, by decide⟩,
    (initTheme_ignores_unusable_value badValuePage samplePage.localStorage
      (Or.inr ⟨"Dark", rfl, by decide, by decide⟩) rfl).1⟩

theorem ariaMatchesMode_applyTheme (m : String) (p : Page) :
    ariaMatchesMode (applyTheme m p) := by
  unfold ariaMatchesMode
  rw [ariaPressed_applyTheme, isDarkApplied_applyTheme]
  have : (applyTheme m p).darkToggle.isSome = p.darkToggle.isSome :=
    applyTheme_darkToggle_isSome m p
  cases hp : p.darkToggle <;> cases hq : (applyTheme m p).darkToggle <;>
    simp [hp, hq] at this ⊢

theorem ariaMatchesMode_of_sameDisplay {p q : Page} (h : sameDisplay p q)
    (hq : ariaMatchesMode q) : ariaMatchesMode p := by
  unfold ariaMatchesMode at hq ⊢
  rw [h.2.1, hq, isDarkApplied_congr h]
  have ht := h.2.2
  unfold toggleIcon at ht
  cases hp : p.darkToggle <;> cases hq : q.darkToggle <;> simp [hp, hq] at ht ⊢

theorem toggleTimes_ariaMatchesMode (n : Nat) :
    ∀ p : Page, ∃ p', toggleTimes n p = .ok p' ∧
      p'.darkToggle.isSome = p.darkToggle.isSome ∧ (ariaMatchesMode p → ariaMatchesMode p') := by
  induction n with
  | zero => intro p; exact ⟨p, rfl, rfl, id⟩
  | succ n ih =>
    intro p
    obtain ⟨p1, h1, h2, -, -, -⟩ := toggleTheme_display p
    obtain ⟨p', g1, g2, g3⟩ := ih p1
    have hm : ariaMatchesMode p1 :=
      ariaMatchesMode_of_sameDisplay h2 (ariaMatchesMode_applyTheme _ _)
    have hs : p1.darkToggle.isSome = p.darkToggle.isSome := by
      have ht := h2.2.2
      rw [toggleIcon_applyTheme] at ht
      unfold toggleIcon at ht
      cases hp : p.darkToggle <;> cases hq : p1.darkToggle <;> simp [hp, hq] at ht ⊢
    refine ⟨p', ?_, g2.trans hs, fun _ => g3 hm⟩
    show (match toggleTheme p with
      | .ok p1 => toggleTimes n p1
      | .error e => .error e) = _
    rw [h1]; exact g1

/-- C9: let the toggle control exist on the page. For every `n`, `initTheme` followed by `n`
calls of `toggleTheme` returns normally, the control still exists, and its `aria-pressed`
attribute is `true` if and only if the body carries `dark-mode` and `false` if and only if
the body does not carry it. -/
theorem ariaPressed_matches_mode (p : Page) (el : Element) (hel : p.darkToggle = some el)
    (n : Nat) :
    ∃ p0 p' el', initTheme p = .ok p0 ∧ toggleTimes n p0 = .ok p' ∧
      p'.darkToggle = some el' ∧
      (el'.getAttribute "aria-pressed" = some "true" ↔ isDarkApplied p' = true) ∧
      (el'.getAttribute "aria-pressed" = some "false" ↔ isDarkApplied p' = false) := by
  obtain ⟨p0, h1, h2, -⟩ := initTheme_display p
  have hm0 : ariaMatchesMode p0 :=
    ariaMatchesMode_of_sameDisplay h2 (ariaMatchesMode_applyTheme _ _)
  have hs0 : p0.darkToggle.isSome = true := by
    have ht := h2.2.2
    rw [toggleIcon_applyTheme, hel] at ht
    unfold toggleIcon at ht
    cases hq : p0.darkToggle <;> simp [hq] at ht ⊢
  obtain ⟨p', g1, g2, g3⟩ := toggleTimes_ariaMatchesMode n p0
  have hm := g3 hm0
  rw [hs0] at g2
  obtain ⟨el', hel'⟩ := Option.isSome_iff_exists.1 g2
  refine ⟨p0, p', el', h1, g1, hel', ?_⟩
  unfold ariaMatchesMode ariaPressed at hm
  rw [hel'] at hm
  simp only [Option.bind_some, Option.map_some', Option.some_bind] at hm
  rw [hm]
  cases isDarkApplied p' <;> simp

theorem ariaPressed_matches_mode_witness :
    samplePage.darkToggle =
      some { attributes := [("id", "dark-mode-toggle")], innerHTML := "", listeners := [] } ∧
    ∃ p0 p' el', initTheme samplePage = .ok p0 ∧ toggleTimes 3 p0 = .ok p' ∧
      p'.darkToggle = some el' ∧
      (el'.getAttribute "aria-pressed" = some "true" ↔ isDarkApplied p' = true) ∧
      (el'.getAttribute "aria-pressed" = some "false" ↔ isDarkApplied p' = false) :=
  ⟨rfl, ariaPressed_matches_mode samplePage _ rfl 3⟩

/-- C10: the keydown listener of the document (for every key, `Tab` included) and the
mousedown listener of the document leave the theme as it is: the body carries `dark-mode`
afterwards exactly when it did before, every class other than `theme-dark` is kept, the toggle
control (with its `aria-pressed` and markup) is unchanged, and `localStorage` (pairs and
calls) is unchanged. -/
theorem focus_handlers_keep_theme (key : String) (p : Page) :
    (isDarkApplied (documentKeydown key p) = isDarkApplied p ∧
      (∀ c, c ≠ "theme-dark" →
        (c ∈ (documentKeydown key p).bodyClassList ↔ c ∈ p.bodyClassList)) ∧
      (documentKeydown key p).darkToggle = p.darkToggle ∧
      ariaPressed (documentKeydown key p) = ariaPressed p ∧
      (documentKeydown key p).localStorage = p.localStorage) ∧
    (isDarkApplied (documentMousedown p) = isDarkApplied p ∧
      (∀ c, c ≠ "theme-dark" →
        (c ∈ (documentMousedown p).bodyClassList ↔ c ∈ p.bodyClassList)) ∧
      (documentMousedown p).darkToggle = p.darkToggle ∧
      ariaPressed (documentMousedown p) = ariaPressed p ∧
      (documentMousedown p).localStorage = p.localStorage) := by
  have hk : ∀ c, c ≠ "theme-dark" →
      (c ∈ (documentKeydown key p).bodyClassList ↔ c ∈ p.bodyClassList) := by
    intro c hc
    unfold documentKeydown
    split
    · show c ∈ classListAdd _ _ ↔ _
      rw [mem_classListAdd]
      exact ⟨fun h => h.elim id (fun h => absurd h hc), Or.inl⟩
    · exact Iff.rfl
  have hm : ∀ c, c ≠ "theme-dark" →
      (c ∈ (documentMousedown p).bodyClassList ↔ c ∈ p.bodyClassList) := by
    intro c hc
    show c ∈ classListRemove _ _ ↔ _
    rw [mem_classListRemove]
    exact ⟨fun h => h.1, fun h => ⟨h, hc⟩⟩
  have hne : DARK_CLASS ≠ "theme-dark" := by decide
  refine ⟨⟨?_, hk, ?_, ?_, ?_⟩, ⟨?_, hm, rfl, rfl, rfl⟩⟩
  · unfold isDarkApplied classListContains
    exact decide_eq_decide.2 (hk _ hne)
  · unfold documentKeydown; split <;> rfl
  · unfold documentKeydown; split <;> rfl
  · unfold documentKeydown; split <;> rfl
  · unfold isDarkApplied classListContains
    exact decide_eq_decide.2 (hm _ hne)

end Portfolio
